import Mathlib

/-!
Verification of the sharded-parameter distributed training coordinator
(FSDP-style) specification and of the ONNX diagnostics generator
(`tools/onnx/gen_diagnostics.py`).

The FSDP implementation modules (`flat_param.py`,
`fully_sharded_data_parallel.py`, `wrap.py`, `api.py`) are only re-exported by
`torch/distributed/fsdp/__init__.py` in this excerpt; their behaviour is
modelled from the specification where so marked. The diagnostics generator is
embedded directly from `tools/onnx/gen_diagnostics.py`.
-/

namespace Spec2Proof

/- ===================== FSDP: Flattening Layer ===================== -/

/-- Modelled from the spec: a Parameter — a named, shaped, typed tensor
(`flat_param.py` is missing from the excerpt). `dtype` is the dtype class
encoded as its item size in bytes (e.g. 4 for a 4-byte float); `shape` is the
tensor shape; `data` the element values in row-major order. -/
structure Param where
  dtype : Nat
  shape : List Nat
  data  : List Int
  deriving Repr, DecidableEq

/-- Number of elements a tensor of this shape holds. -/
def Param.numel (p : Param) : Nat := p.shape.prod

/-- Well-formedness: the stored data has exactly `numel` elements. -/
def Param.wf (p : Param) : Prop := p.data.length = p.numel

instance (p : Param) : Decidable p.wf := by
  unfold Param.wf
  infer_instance

/-- Ceiling division, used to size per-worker shards. -/
def ceilDiv (n w : Nat) : Nat := (n + w - 1) / w

/-- Length of the flat buffer after padding to be evenly divisible by the
worker count `w`. -/
def paddedLen (n w : Nat) : Nat := w * ceilDiv n w

/-- Pad a buffer with trailing zeros up to length `n`. -/
def padTo (n : Nat) (xs : List Int) : List Int :=
  xs ++ List.replicate (n - xs.length) 0

/-- Concatenation of the parameters' data in the given order. -/
def flattenData (ps : List Param) : List Int := (ps.map Param.data).flatten

/-- Construction-time errors of the Flattening Layer. -/
inductive FlattenError where
  | emptyGroup
  | mismatchedDtype
  deriving Repr, DecidableEq

/-- Modelled from the spec: `flatten()` of the Flattening Layer
(`flat_param.py` is missing from the excerpt). Given the ordered parameters of
one Shard Group and the worker count `w`, produces the Flat Buffer: the
parameters concatenated in order, zero-padded to be evenly divisible by `w`.
Rejects zero-parameter groups, and rejects mismatched dtype classes when the
policy requires a uniform dtype per group (`requireUniform`). Errors are
reported at construction, before any buffer is produced (no partial wrap). -/
def flatten (ps : List Param) (w : Nat) (requireUniform : Bool) :
    Except FlattenError (List Int) :=
  match ps with
  | [] => .error .emptyGroup
  | p :: rest =>
    if requireUniform && !(rest.all (fun q => q.dtype == p.dtype)) then
      .error .mismatchedDtype
    else
      .ok (padTo (paddedLen (flattenData (p :: rest)).length w)
        (flattenData (p :: rest)))

/-- The (dtype, shape) metadata of each parameter, in order. -/
def paramMeta (ps : List Param) : List (Nat × List Nat) :=
  ps.map (fun p => (p.dtype, p.shape))

/-- Modelled from the spec: `split()` of the Flattening Layer
(`flat_param.py` is missing from the excerpt). Given the original order,
dtypes and shapes, cuts the flat buffer back into the per-parameter tensors;
trailing padding is ignored because only `shape.prod` elements are consumed
per parameter. -/
def split : List (Nat × List Nat) → List Int → List Param
  | [], _ => []
  | (d, s) :: rest, buf =>
    ⟨d, s, buf.take s.prod⟩ :: split rest (buf.drop s.prod)

/- ===================== FSDP: Shard Store ===================== -/

/-- Cut `xs` into `k` consecutive chunks of length `len` each. -/
def chunkList (len : Nat) : Nat → List Int → List (List Int)
  | 0, _ => []
  | k + 1, xs => xs.take len :: chunkList len k (xs.drop len)

/-- Modelled from the spec: the rank-ordered shards of a flat buffer across
`w` workers — the buffer partitioned contiguously into `w` equal pieces. -/
def allShards (buf : List Int) (w : Nat) : List (List Int) :=
  chunkList (buf.length / w) w buf

/-- Modelled from the spec: worker `r`'s local shard of the flat buffer. -/
def shard (buf : List Int) (w r : Nat) : List Int :=
  (buf.drop (r * (buf.length / w))).take (buf.length / w)

/-- Modelled from the spec: the all-gather performed by `unshard()` as it is
observed on worker `r` — every worker's shard combined into a full buffer,
delivered identically to all workers (the result does not depend on `r`). -/
def unshardOnWorker (_r : Nat) (shards : List (List Int)) : List Int :=
  shards.flatten

/- ============ FSDP: Unshard/Reshard Controller state machine ============ -/

/-- Modelled from the spec: the lifecycle states of a Shard Group's Flat
Buffer in the Unshard/Reshard Controller (`fully_sharded_data_parallel.py` is
missing from the excerpt). -/
inductive GroupState where
  | SHARDED
  | UNSHARDING
  | UNSHARDED
  | RESHARDING
  deriving Repr, DecidableEq, Fintype

/-- Modelled from the spec: every Shard Group starts in state SHARDED. -/
def initialState : GroupState := .SHARDED

/-- Modelled from the spec: the transition cycle
SHARDED → UNSHARDING → UNSHARDED → RESHARDING → SHARDED. -/
def nextState : GroupState → GroupState
  | .SHARDED => .UNSHARDING
  | .UNSHARDING => .UNSHARDED
  | .UNSHARDED => .RESHARDING
  | .RESHARDING => .SHARDED

/-- Modelled from the spec: how many full materializations of the group's
buffer exist in each state (the full buffer exists from the start of
unsharding until resharding completes). -/
def fullMaterializations : GroupState → Nat
  | .SHARDED => 0
  | .UNSHARDING => 1
  | .UNSHARDED => 1
  | .RESHARDING => 1

/-- Modelled from the spec: one `unshard()` request handled by the controller
(serialized per group, per the concurrency model). From SHARDED it drives the
group to UNSHARDED and issues exactly one all-gather collective; in any other
state the request is coalesced with the materialization already in flight and
issues no collective. Returns (new state, number of collectives issued). -/
def unshardStep : GroupState → GroupState × Nat
  | .SHARDED => (.UNSHARDED, 1)
  | s => (s, 0)

/- ============ FSDP: Wrap Policy and collective-call trace ============ -/

/-- Modelled from the spec: the metadata of one submodule of the module graph
that the Wrap Policy reads (`wrap.py` is missing from the excerpt). -/
structure FsdpModule where
  id : Nat
  paramSizes : List Nat
  deriving Repr, DecidableEq

/-- Modelled from the spec: one worker — its rank, its module graph, its Wrap
Policy predicate, and its locally resident shard data. -/
structure Worker where
  rank : Nat
  graph : List FsdpModule
  policy : FsdpModule → Bool
  localShards : List Int

/-- Modelled from the spec: applying the Wrap Policy once at construction
yields the static ordered sequence of Shard Groups matching execution
order. -/
def wrapGroups (graph : List FsdpModule) (policy : FsdpModule → Bool) :
    List FsdpModule :=
  graph.filter policy

/-- A collective call as recorded in the coordinator's trace. -/
inductive CollectiveCall where
  | allGather (groupId : Nat)
  | reduceScatter (groupId : Nat)
  deriving Repr, DecidableEq

/-- Modelled from the spec: the sequence of collective calls one worker issues
for one fixed input batch — an unshard all-gather per group in forward
traversal order, then a gradient reduce-scatter per group in reverse order
during backward. The trace is a function of the module graph and the Wrap
Policy only; the worker's rank and shard contents never enter it. -/
def collectiveTrace (w : Worker) (_batch : List Int) : List CollectiveCall :=
  let gs := wrapGroups w.graph w.policy
  (gs.map (fun m => CollectiveCall.allGather m.id)) ++
    (gs.reverse.map (fun m => CollectiveCall.reduceScatter m.id))

/- ===================== FSDP: State-Dict Assembler ===================== -/

/-- Modelled from the spec: worker `r`'s shard of a group whose unpadded flat
buffer is `data`, across `w` workers: slice `r` of the zero-padded buffer. -/
def mkShard (data : List Int) (w r : Nat) : List Int :=
  ((padTo (paddedLen data.length w) data).drop (r * ceilDiv data.length w)).take
    (ceilDiv data.length w)

/-- The rank-ordered list of every worker's shard. -/
def allShardsOf (data : List Int) (w : Nat) : List (List Int) :=
  (List.range w).map (fun r => mkShard data w r)

/-- State-dict load errors. -/
inductive LoadError where
  | worldSizeMismatch
  | shapeMismatch
  deriving Repr, DecidableEq

/-- Modelled from the spec: full-mode `state_dict()` — every worker
cooperatively all-gathers the shards and assembles the original buffer,
identical on every rank (the padding is dropped). -/
def fullStateDict (shards : List (List Int)) (origLen : Nat) : List Int :=
  shards.flatten.take origLen

/-- Modelled from the spec: loading a full state dict — each worker extracts
and retains only its own partition, with no communication error possible. -/
def loadFull (sd : List Int) (w r : Nat) : List Int := mkShard sd w r

/-- Modelled from the spec: a local-mode state dict — this worker's raw shard
plus the metadata (world size, rank, global length) needed to reassemble. -/
structure LocalSD where
  worldSize : Nat
  rank : Nat
  shardData : List Int
  origLen : Nat
  deriving Repr, DecidableEq

/-- Modelled from the spec: local-mode `state_dict()` — no communication;
returns the worker's raw (padded) shard plus metadata. -/
def localStateDict (data : List Int) (w r : Nat) : LocalSD :=
  ⟨w, r, mkShard data w r, data.length⟩

/-- Modelled from the spec: loading a local state dict — validation first
(world size, then shard shape), and only if both checks pass is the shard
returned for installation; a mismatch is an error, never a silent reshape. -/
def loadLocal (sd : LocalSD) (w : Nat) : Except LoadError (List Int) :=
  if sd.worldSize ≠ w then .error .worldSizeMismatch
  else if sd.shardData.length ≠ ceilDiv sd.origLen w then .error .shapeMismatch
  else .ok sd.shardData

/-- A worker applying a local-mode load to its current shard: the buffer is
mutated only when the load succeeds (all-or-nothing). -/
def applyLoadLocal (sd : LocalSD) (w : Nat) (cur : List Int) : List Int :=
  match loadLocal sd w with
  | .ok newShard => newShard
  | .error _ => cur

/-- Modelled from the spec: a sharded-mode state dict — a uniformly shaped,
padding-free representation: the worker's shard with the zero pad beyond the
global length removed. -/
structure ShardedSD where
  worldSize : Nat
  rank : Nat
  chunk : List Int
  origLen : Nat
  deriving Repr, DecidableEq

/-- The padding-free length of worker `r`'s shard: the full shard length
capped by what remains of the unpadded buffer past the shard's offset. -/
def trimLen (n w r : Nat) : Nat := min (ceilDiv n w) (n - r * ceilDiv n w)

/-- Modelled from the spec: sharded-mode `state_dict()` — the shard with its
trailing zero padding dropped, plus metadata. -/
def shardedStateDict (data : List Int) (w r : Nat) : ShardedSD :=
  ⟨w, r, (mkShard data w r).take (trimLen data.length w r), data.length⟩

/-- Modelled from the spec: loading a sharded state dict — validation first
(the world size, then the chunk's shape against the padding-free length this
rank's shard must have); only when both checks pass is the chunk re-padded
with zeros back to the uniform shard length. A world-size or shape mismatch
is a load error, never a silent reshape. -/
def loadSharded (sd : ShardedSD) (w : Nat) : Except LoadError (List Int) :=
  if sd.worldSize ≠ w then .error .worldSizeMismatch
  else if sd.chunk.length ≠ trimLen sd.origLen w sd.rank then
    .error .shapeMismatch
  else
    .ok (sd.chunk ++ List.replicate (ceilDiv sd.origLen w - sd.chunk.length) 0)

/-- A worker applying a sharded-mode load to its current shard: the buffer is
mutated only when the load succeeds (all-or-nothing). -/
def applyLoadSharded (sd : ShardedSD) (w : Nat) (cur : List Int) : List Int :=
  match loadSharded sd w with
  | .ok newShard => newShard
  | .error _ => cur

/- ============ tools/onnx/gen_diagnostics.py ============ -/

/-- The opening brace character, `Char.ofNat 123`. -/
def lbrace : Char := Char.ofNat 123

/-- The closing brace character, `Char.ofNat 125`. -/
def rbrace : Char := Char.ofNat 125

/-- The single-quote character, `Char.ofNat 39`. -/
def squote : Char := Char.ofNat 39

/-- The backslash character, `Char.ofNat 92`. -/
def bslash : Char := Char.ofNat 92

/-- One fragment of a parsed Python format string, as produced by
`string.Formatter().parse`: a literal character or a replacement field with
its field name (format spec and conversion are consumed but not kept, as
`_format_rule_for_python_class` only reads the field names). -/
inductive FmtPart where
  | lit (c : Char)
  | field (name : List Char)
  deriving Repr, DecidableEq

/-- The scanning mode of the format-string parser: in literal text, inside a
field name, expecting a conversion character after the exclamation mark, just
after the conversion character, or inside a format spec at a brace-nesting
depth. -/
inductive PMode where
  | literal
  | fieldName
  | conv
  | afterConv
  | spec (depth : Nat)
  deriving Repr, DecidableEq

/-- The scanner behind `string.Formatter().parse` (CPython's markup
iterator): doubled braces are literals, a single closing brace outside a
field is an error, a field is a name terminated by a closing brace, an
optional conversion introduced by an exclamation mark, or a format spec
introduced by a colon in which braces may nest. Returns `none` exactly where
CPython raises `ValueError`. -/
def pyFmtLoop : List Char → PMode → List Char → List FmtPart →
    Option (List FmtPart)
  | [], .literal, _, acc => some acc.reverse
  | [], _, _, _ => none
  | c :: rest, .literal, _, acc =>
    if c = lbrace then
      match rest with
      | [] => none
      | c2 :: rest2 =>
        if c2 = lbrace then pyFmtLoop rest2 .literal [] (.lit lbrace :: acc)
        else pyFmtLoop (c2 :: rest2) .fieldName [] acc
    else if c = rbrace then
      match rest with
      | [] => none
      | c2 :: rest2 =>
        if c2 = rbrace then pyFmtLoop rest2 .literal [] (.lit rbrace :: acc)
        else none
    else pyFmtLoop rest .literal [] (.lit c :: acc)
  | c :: rest, .fieldName, nameAcc, acc =>
    if c = rbrace then
      pyFmtLoop rest .literal [] (.field nameAcc.reverse :: acc)
    else if c = '!' then pyFmtLoop rest .conv nameAcc acc
    else if c = ':' then pyFmtLoop rest (.spec 0) nameAcc acc
    else if c = lbrace then none
    else pyFmtLoop rest .fieldName (c :: nameAcc) acc
  | _ :: rest, .conv, nameAcc, acc => pyFmtLoop rest .afterConv nameAcc acc
  | c :: rest, .afterConv, nameAcc, acc =>
    if c = rbrace then
      pyFmtLoop rest .literal [] (.field nameAcc.reverse :: acc)
    else if c = ':' then pyFmtLoop rest (.spec 0) nameAcc acc
    else none
  | c :: rest, .spec d, nameAcc, acc =>
    if c = rbrace then
      if d = 0 then pyFmtLoop rest .literal [] (.field nameAcc.reverse :: acc)
      else pyFmtLoop rest (.spec (d - 1)) nameAcc acc
    else if c = lbrace then pyFmtLoop rest (.spec (d + 1)) nameAcc acc
    else pyFmtLoop rest (.spec d) nameAcc acc

/-- `string.Formatter().parse(s)` reduced to what the generator consumes:
the ordered fragments, or `none` on a malformed template. -/
def pyFormatParse (s : String) : Option (List FmtPart) :=
  pyFmtLoop s.toList .literal [] []

/-- The `field_names` list comprehension of `_format_rule_for_python_class`:
the field names of the parsed fragments, in template order, keeping only
fragments that carry a field (`field_name is not None`). -/
def extractFieldNames (parts : List FmtPart) : List String :=
  parts.filterMap (fun p =>
    match p with
    | .field cs => some (String.mk cs)
    | .lit _ => none)

/-- `str.isnumeric` restricted to the ASCII field names that occur in rule
templates: non-empty and all decimal digits (exactly the positional
`{0}`-style names the generator rejects). -/
def pyIsNumeric (s : String) : Bool :=
  !s.isEmpty && s.toList.all Char.isDigit

/-- The `for field_name in field_names: assert ...` loop of
`_format_rule_for_python_class`: fails at the first numeric field name (the
`isinstance(field_name, str)` assertion always holds here because the parser
yields strings). -/
def checkFieldNames : List String → Except String Unit
  | [] => .ok ()
  | f :: rest =>
    if pyIsNumeric f then
      .error ("Unexpected numeric field name " ++ f ++ ". ")
    else checkFieldNames rest

/-- `str.capitalize`: first character uppercased, the rest lowercased. -/
def pyCapitalize (s : String) : String :=
  match s.toList with
  | [] => ""
  | c :: cs => String.mk (c.toUpper :: cs.map Char.toLower)

/-- `_kebab_case_to_pascal_case`: capitalize each dash-separated word and
join. -/
def kebabToPascal (name : String) : String :=
  String.join ((name.splitOn "-").map pyCapitalize)

/-- `_kebab_case_to_snake_case`: replace every dash with an underscore. -/
def kebabToSnake (name : String) : String :=
  name.map (fun c => if c = '-' then '_' else c)

/-- Python `repr` of a string in the common single-quote form: wrap in single
quotes, escaping backslashes, single quotes and newlines (the double-quote
fallback for strings containing a quote is not modelled; rule templates do
not contain quotes). -/
def pyRepr (s : String) : String :=
  String.mk (squote ::
    (s.toList.map (fun c =>
      if c = squote then [bslash, squote]
      else if c = bslash then [bslash, bslash]
      else if c = Char.ofNat 10 then [bslash, 'n']
      else [c])).flatten ++ [squote])

/-- The fields of one diagnostic rule that `gen_diagnostics.py` reads:
`rule["name"]`, `rule["short_description"]["text"]` and
`rule["message_strings"]["default"]["text"]`. -/
structure PyRule where
  name : String
  short_description : String
  message_template : String
  deriving Repr, DecidableEq

/-- `_PY_RULE_CLASS_TEMPLATE` instantiated with the five substituted values,
exactly as `_PY_RULE_CLASS_TEMPLATE.format(...)` produces it: the generated
class overrides `format_message` and `format`, whose signatures list the
`message_arguments` string. -/
def pyRuleClassTemplate (pascalCaseName shortDescription messageTemplate
    messageArguments messageArgumentsAssigned : String) : String :=
  "class _" ++ pascalCaseName ++ "(infra.Rule):\n" ++
  "    \"\"\"" ++ shortDescription ++ "\"\"\"\n" ++
  "    def format_message(  # type: ignore[override]\n" ++
  "        self,\n" ++
  "        " ++ messageArguments ++ "\n" ++
  "    ) -> str:\n" ++
  "        \"\"\"Returns the formatted default message of this Rule.\n" ++
  "\n" ++
  "        Message template: " ++ messageTemplate ++ "\n" ++
  "        \"\"\"\n" ++
  "        return self.message_default_template.format(" ++
    messageArgumentsAssigned ++ ")\n" ++
  "\n" ++
  "    def format(  # type: ignore[override]\n" ++
  "        self,\n" ++
  "        level: infra.Level,\n" ++
  "        " ++ messageArguments ++ "\n" ++
  "    ) -> Tuple[infra.Rule, infra.Level, str]:\n" ++
  "        \"\"\"Returns a tuple of (Rule, Level, message) for this Rule.\n" ++
  "\n" ++
  "        Message template: " ++ messageTemplate ++ "\n" ++
  "        \"\"\"\n" ++
  "        return self, level, self.format_message(" ++
    messageArgumentsAssigned ++ ")\n" ++
  "\n"

/-- `_format_rule_for_python_class`: parse the message template, collect the
field names, run the assertion loop, then fill `_PY_RULE_CLASS_TEMPLATE` with
the pascal-case name, the short description, the `repr` of the template, the
comma-joined field names and the comma-joined `name=name` assignments.
Exceptions (a `ValueError` from the parser or an `AssertionError` from the
loop) surface as `Except.error`. -/
def formatRuleForPythonClass (rule : PyRule) : Except String String :=
  match pyFormatParse rule.message_template with
  | none => .error "ValueError"
  | some parts =>
    let fieldNames := extractFieldNames parts
    match checkFieldNames fieldNames with
    | .error e => .error e
    | .ok _ =>
      .ok (pyRuleClassTemplate (kebabToPascal rule.name)
        rule.short_description (pyRepr rule.message_template)
        (String.intercalate ", " fieldNames)
        (String.intercalate ", " (fieldNames.map (fun f => f ++ "=" ++ f))))

/-- A filesystem effect of the generator: writing a generated file into an
output directory (`FileManager.write_with_template`), or running
`lintrunner -a` on a just-written file (`_lint_file`), which rewrites that
same file in place. -/
inductive GenEffect where
  | writeFile (dir file : String)
  | lintFile (dir file : String)
  deriving Repr, DecidableEq

/-- `gen_diagnostics_python`: formats each rule (surfacing any assertion
failure, which in the source aborts before any write, since both list
comprehensions are fully evaluated first), then writes `_rules.py` into
`out_py_dir` and lints it. -/
def gen_diagnostics_python (rules : List PyRule) (out_py_dir : String)
    (_template_dir : String) : Except String (List GenEffect) :=
  (rules.mapM formatRuleForPythonClass).map (fun _ =>
    [.writeFile out_py_dir "_rules.py", .lintFile out_py_dir "_rules.py"])

/-- `gen_diagnostics_cpp`: writes `rules.h` into `out_cpp_dir` and lints it
(`_format_rule_for_cpp` has no failing path). -/
def gen_diagnostics_cpp (_rules : List PyRule) (out_cpp_dir : String)
    (_template_dir : String) : List GenEffect :=
  [.writeFile out_cpp_dir "rules.h", .lintFile out_cpp_dir "rules.h"]

/-- `gen_diagnostics_docs`: the body is `pass` — no effect at all. -/
def gen_diagnostics_docs (_rules : List PyRule) (_out_docs_dir : String)
    (_template_dir : String) : List GenEffect :=
  []

/-- `gen_diagnostics`: runs the Python, C++ and docs generators in order on
the rules loaded from the rules file (the YAML load itself is external
input), accumulating their filesystem effects. -/
def gen_diagnostics (rules : List PyRule)
    (out_py_dir out_cpp_dir out_docs_dir template_dir : String) :
    Except String (List GenEffect) :=
  (gen_diagnostics_python rules out_py_dir template_dir).map (fun pyEffs =>
    pyEffs ++ gen_diagnostics_cpp rules out_cpp_dir template_dir ++
      gen_diagnostics_docs rules out_docs_dir template_dir)

/-- The files written by a list of effects, as (directory, file) pairs in
order; a lint pass touches only a file some earlier effect wrote. -/
def writesOf (effs : List GenEffect) : List (String × String) :=
  effs.filterMap (fun e =>
    match e with
    | .writeFile d f => some (d, f)
    | .lintFile _ _ => none)

/-- The directory an effect touches. -/
def touchesDir : GenEffect → String
  | .writeFile d _ => d
  | .lintFile d _ => d

/- ===================== Theorems ===================== -/

/-- Splitting recovers the parameters from their concatenated data followed by
any trailing extra elements (the padding), by induction over the group. -/
theorem split_flattenData_append (ps : List Param) (extra : List Int)
    (hwf : ∀ p ∈ ps, p.wf) :
    split (paramMeta ps) (flattenData ps ++ extra) = ps := by
  induction ps with
  | nil => simp [split, paramMeta, flattenData]
  | cons p rest ih =>
    have hp : p.data.length = p.shape.prod := hwf p (by simp)
    have hrest : ∀ q ∈ rest, q.wf := fun q hq => hwf q (by simp [hq])
    simp only [paramMeta, List.map_cons, flattenData, List.flatten_cons, split]
    rw [List.append_assoc, List.take_left' hp, List.drop_left' hp]
    have hre := ih hrest
    simp only [paramMeta, flattenData] at hre
    rw [hre]

/-- C1: for every ordered parameter group and every worker count, `split()`
applied to the result of `flatten()` with the same parameter order, dtypes and
shapes reproduces the original tensors bit-identically, with their original
shapes and values. -/
theorem C1_flatten_split_roundtrip (ps : List Param) (w : Nat)
    (requireUniform : Bool) (buf : List Int) (hwf : ∀ p ∈ ps, p.wf)
    (hok : flatten ps w requireUniform = .ok buf) :
    split (paramMeta ps) buf = ps := by
  match ps with
  | [] => simp [flatten] at hok
  | p :: rest =>
    rw [flatten] at hok
    split at hok
    case isTrue => exact absurd hok (by simp)
    case isFalse =>
      have hbuf : buf = flattenData (p :: rest) ++
          List.replicate (paddedLen (flattenData (p :: rest)).length w -
            (flattenData (p :: rest)).length) 0 := by
        have := hok
        simp only [Except.ok.injEq] at this
        rw [← this, padTo]
      rw [hbuf]
      exact split_flattenData_append (p :: rest) _ hwf

/-- Witness for C1 at the spec's Scenario B: three parameters of sizes
[2], [3], [1] flattened over 2 workers and split back. -/
theorem C1_flatten_split_roundtrip_witness :
    split (paramMeta [⟨0, [2], [1, 2]⟩, ⟨0, [3], [3, 4, 5]⟩, ⟨0, [1], [6]⟩])
        [1, 2, 3, 4, 5, 6] =
      [⟨0, [2], [1, 2]⟩, ⟨0, [3], [3, 4, 5]⟩, ⟨0, [1], [6]⟩] :=
  C1_flatten_split_roundtrip
    [⟨0, [2], [1, 2]⟩, ⟨0, [3], [3, 4, 5]⟩, ⟨0, [1], [6]⟩] 2 true
    [1, 2, 3, 4, 5, 6] (by decide) (by rfl)

/-- The padded length is at least the unpadded length. -/
theorem le_paddedLen (n w : Nat) (hw : 0 < w) : n ≤ paddedLen n w := by
  unfold paddedLen ceilDiv
  have h1 := Nat.div_add_mod (n + w - 1) w
  have h2 := Nat.mod_lt (n + w - 1) hw
  generalize hB : (n + w - 1) % w = b at h1 h2
  generalize hA : w * ((n + w - 1) / w) = a at h1 ⊢
  omega

/-- Padding a buffer that fits yields exactly the target length. -/
theorem padTo_length {m : Nat} (xs : List Int) (h : xs.length ≤ m) :
    (padTo m xs).length = m := by
  simp [padTo]
  omega

/-- Concatenating the chunks of a buffer of length `len * k` restores it. -/
theorem chunkList_flatten (len : Nat) :
    ∀ (k : Nat) (xs : List Int), xs.length = len * k →
      (chunkList len k xs).flatten = xs := by
  intro k
  induction k with
  | zero =>
    intro xs h
    have hnil : xs = [] := List.length_eq_zero.mp (by simpa using h)
    simp [chunkList, hnil]
  | succ k ih =>
    intro xs h
    have hd : (xs.drop len).length = len * k := by
      rw [List.length_drop, h, Nat.mul_succ, Nat.add_sub_cancel]
    rw [chunkList, List.flatten_cons, ih _ hd, List.take_append_drop]

/-- C2: for every Shard Group's flat buffer and every positive worker count,
concatenating the `w` workers' shards in rank order yields the flat buffer
followed by the zero-filled trailing padding, so dropping (taking past) the
padding reconstructs the original flattened buffer exactly; the shards are
cut once from the immutable padded buffer, so this holds at every point of
the group's lifetime. -/
theorem C2_partition_completeness (flat : List Int) (w : Nat) (hw : 0 < w) :
    (allShards (padTo (paddedLen flat.length w) flat) w).flatten =
      flat ++ List.replicate (paddedLen flat.length w - flat.length) 0 ∧
    ((allShards (padTo (paddedLen flat.length w) flat) w).flatten).take
      flat.length = flat := by
  have hle := le_paddedLen flat.length w hw
  have hlen : (padTo (paddedLen flat.length w) flat).length =
      paddedLen flat.length w := padTo_length flat hle
  have hdiv : (padTo (paddedLen flat.length w) flat).length / w =
      ceilDiv flat.length w := by
    rw [hlen, paddedLen]
    exact Nat.mul_div_cancel_left _ hw
  have hflat : (allShards (padTo (paddedLen flat.length w) flat) w).flatten =
      padTo (paddedLen flat.length w) flat := by
    rw [allShards, hdiv]
    exact chunkList_flatten _ w _ (by rw [hlen, paddedLen, Nat.mul_comm])
  refine ⟨by rw [hflat]; rfl, ?_⟩
  rw [hflat, padTo, List.take_left' rfl]

/-- Witness for C2 at a 3-element buffer over 2 workers (one pad element). -/
theorem C2_partition_completeness_witness :
    (allShards (padTo (paddedLen ([1, 2, 3] : List Int).length 2) [1, 2, 3])
        2).flatten =
      [1, 2, 3] ++
        List.replicate
          (paddedLen ([1, 2, 3] : List Int).length 2 -
            ([1, 2, 3] : List Int).length) 0 ∧
    ((allShards (padTo (paddedLen ([1, 2, 3] : List Int).length 2) [1, 2, 3])
        2).flatten).take ([1, 2, 3] : List Int).length = [1, 2, 3] :=
  C2_partition_completeness [1, 2, 3] 2 (by decide)

/-- C3: every Shard Group starts in SHARDED; at any instant it is in exactly
one of the four states (the four are exhaustive and pairwise distinct); the
transitions follow the cycle SHARDED → UNSHARDING → UNSHARDED → RESHARDING →
SHARDED with no terminal state (every state recurs after four transitions);
at most one full materialization exists in any state; and two unshard
requests on the same group issue at most one collective in total. -/
theorem C3_state_machine :
    initialState = GroupState.SHARDED ∧
    (∀ s : GroupState, s = .SHARDED ∨ s = .UNSHARDING ∨ s = .UNSHARDED ∨
      s = .RESHARDING) ∧
    (GroupState.SHARDED ≠ .UNSHARDING ∧ GroupState.SHARDED ≠ .UNSHARDED ∧
      GroupState.SHARDED ≠ .RESHARDING ∧
      GroupState.UNSHARDING ≠ .UNSHARDED ∧
      GroupState.UNSHARDING ≠ .RESHARDING ∧
      GroupState.UNSHARDED ≠ .RESHARDING) ∧
    nextState .SHARDED = .UNSHARDING ∧
    nextState .UNSHARDING = .UNSHARDED ∧
    nextState .UNSHARDED = .RESHARDING ∧
    nextState .RESHARDING = .SHARDED ∧
    (∀ s : GroupState, nextState (nextState (nextState (nextState s))) = s) ∧
    (∀ s : GroupState, fullMaterializations s ≤ 1) ∧
    (∀ s : GroupState,
      (unshardStep s).2 + (unshardStep (unshardStep s).1).2 ≤ 1) := by
  decide

/-- C4: two workers constructed with identical module graphs and identical
Wrap Policies issue exactly the same sequence of collective calls, in the
same order, for one fixed input batch — whatever their ranks and local shard
contents. -/
theorem C4_collective_trace_determinism (w1 w2 : Worker) (batch : List Int)
    (hg : w1.graph = w2.graph) (hp : w1.policy = w2.policy) :
    collectiveTrace w1 batch = collectiveTrace w2 batch := by
  simp only [collectiveTrace, wrapGroups, hg, hp]

/-- Witness for C4: two workers with different ranks and different local
shard data but the same two-module graph and the same Wrap Policy. -/
theorem C4_collective_trace_determinism_witness :
    collectiveTrace
        ⟨0, [⟨0, [2]⟩, ⟨1, [3]⟩], fun m => m.id == 0, [1, 2]⟩ [5] =
      collectiveTrace
        ⟨1, [⟨0, [2]⟩, ⟨1, [3]⟩], fun m => m.id == 0, [9, 9]⟩ [5] :=
  C4_collective_trace_determinism _ _ [5] rfl rfl

/-- The rank-indexed shard slices are exactly the consecutive chunks. -/
theorem range_map_chunk (len : Nat) :
    ∀ (k : Nat) (xs : List Int),
      (List.range k).map (fun r => (xs.drop (r * len)).take len) =
        chunkList len k xs := by
  intro k
  induction k with
  | zero => intro xs; simp [chunkList]
  | succ k ih =>
    intro xs
    rw [List.range_succ_eq_map, List.map_cons, List.map_map, chunkList]
    congr 1
    · simp
    rw [← ih (xs.drop len)]
    apply List.map_congr_left
    intro a _
    simp only [Function.comp_apply, List.drop_drop, Nat.succ_mul]
    rw [Nat.add_comm]

/-- Concatenating every worker's shard restores the padded flat buffer. -/
theorem allShardsOf_flatten (data : List Int) (w : Nat) (hw : 0 < w) :
    (allShardsOf data w).flatten = padTo (paddedLen data.length w) data := by
  have hlen : (padTo (paddedLen data.length w) data).length =
      paddedLen data.length w :=
    padTo_length data (le_paddedLen data.length w hw)
  rw [allShardsOf]
  rw [show (fun r => mkShard data w r) =
    (fun r => ((padTo (paddedLen data.length w) data).drop
      (r * ceilDiv data.length w)).take (ceilDiv data.length w)) from rfl]
  rw [range_map_chunk]
  exact chunkList_flatten _ w _ (by rw [hlen, paddedLen, Nat.mul_comm])

/-- The all-gathered full state dict of the shards of `data` is `data`. -/
theorem fullStateDict_allShardsOf (data : List Int) (w : Nat) (hw : 0 < w) :
    fullStateDict (allShardsOf data w) data.length = data := by
  rw [fullStateDict, allShardsOf_flatten data w hw, padTo, List.take_left' rfl]

/-- Every worker's shard has the uniform shard length. -/
theorem mkShard_length (data : List Int) (w r : Nat) (hw : 0 < w)
    (hr : r < w) : (mkShard data w r).length = ceilDiv data.length w := by
  have hlen : (padTo (paddedLen data.length w) data).length =
      paddedLen data.length w :=
    padTo_length data (le_paddedLen data.length w hw)
  have hmul : (r + 1) * ceilDiv data.length w ≤ w * ceilDiv data.length w :=
    Nat.mul_le_mul_right _ hr
  rw [Nat.succ_mul] at hmul
  rw [mkShard, List.length_take, List.length_drop, hlen, paddedLen]
  generalize hL : ceilDiv data.length w = L at hmul ⊢
  generalize hA : r * L = a at hmul ⊢
  generalize hB : w * L = b at hmul ⊢
  rw [Nat.min_def]
  split <;> omega

/-- Arithmetic core of the shard decomposition: the padding portion of a
shard is the shard length minus the data that reaches into it. -/
theorem pad_min_eq (len a b n : Nat) (h1 : a + len ≤ b) (h2 : n ≤ b) :
    min (len - (n - a)) (b - n - (a - n)) = len - (n - a) := by
  rw [Nat.min_def]
  split <;> omega

/-- A shard decomposes into its data-carrying front followed by its
zero-filled padding. -/
theorem mkShard_decomp (data : List Int) (w r : Nat) (hw : 0 < w)
    (hr : r < w) :
    mkShard data w r =
      (data.drop (r * ceilDiv data.length w)).take (ceilDiv data.length w) ++
        List.replicate
          (ceilDiv data.length w -
            (data.length - r * ceilDiv data.length w)) 0 := by
  have hle := le_paddedLen data.length w hw
  have hmul : (r + 1) * ceilDiv data.length w ≤ w * ceilDiv data.length w :=
    Nat.mul_le_mul_right _ hr
  rw [Nat.succ_mul] at hmul
  unfold mkShard padTo
  rw [List.drop_append_eq_append_drop, List.take_append_eq_append_take,
    List.drop_replicate, List.take_replicate, List.length_drop]
  congr 1
  congr 1
  exact pad_min_eq (ceilDiv data.length w) (r * ceilDiv data.length w)
    (paddedLen data.length w) data.length hmul hle

/-- Re-padding the padding-free trim of a shard with zeros restores the shard
byte-identically. -/
theorem mkShard_trim_restore (data : List Int) (w r : Nat) (hw : 0 < w)
    (hr : r < w) :
    (mkShard data w r).take (trimLen data.length w r) ++
      List.replicate
        (ceilDiv data.length w -
          ((mkShard data w r).take (trimLen data.length w r)).length) 0 =
      mkShard data w r := by
  have hd := mkShard_decomp data w r hw hr
  have hfrontlen :
      ((data.drop (r * ceilDiv data.length w)).take
        (ceilDiv data.length w)).length = trimLen data.length w r := by
    rw [List.length_take, List.length_drop, trimLen]
  rw [hd, List.take_left' hfrontlen]
  congr 1
  congr 1
  rw [hfrontlen, trimLen, Nat.min_def]
  split <;> omega

/-- The padding-free chunk saved by the sharded-mode state dict has exactly
the padding-free length the rank's shard must have, so it passes the shape
validation of a sharded-mode load. -/
theorem shardedChunk_length (data : List Int) (w r : Nat) (hw : 0 < w)
    (hr : r < w) :
    ((mkShard data w r).take (trimLen data.length w r)).length =
      trimLen data.length w r := by
  rw [List.length_take, mkShard_length data w r hw hr, trimLen]
  exact Nat.min_eq_left (Nat.min_le_left _ _)

/-- C5: with the world size unchanged, `load_state_dict(state_dict())`
leaves the worker's local shard byte-identical, in all three modes: a full
state dict re-sharded gives back the shard, a local state dict loads back
verbatim, and a sharded (padding-free) state dict re-padded with zeros
restores the shard exactly. -/
theorem C5_state_dict_roundtrip (data : List Int) (w r : Nat) (hw : 0 < w)
    (hr : r < w) :
    loadFull (fullStateDict (allShardsOf data w) data.length) w r =
      mkShard data w r ∧
    loadLocal (localStateDict data w r) w = .ok (mkShard data w r) ∧
    loadSharded (shardedStateDict data w r) w = .ok (mkShard data w r) := by
  refine ⟨?_, ?_, ?_⟩
  · rw [loadFull, fullStateDict_allShardsOf data w hw]
  · simp [loadLocal, localStateDict, mkShard_length data w r hw hr]
  · simp only [loadSharded, shardedStateDict]
    rw [if_neg (by simp), if_neg (by simp [shardedChunk_length data w r hw hr])]
    rw [mkShard_trim_restore data w r hw hr]

/-- Witness for C5 at a 3-element buffer over 2 workers, rank 1 (the shard
that carries one data element and one pad element). -/
theorem C5_state_dict_roundtrip_witness :
    loadFull
        (fullStateDict (allShardsOf [1, 2, 3] 2) ([1, 2, 3] : List Int).length)
        2 1 = mkShard [1, 2, 3] 2 1 ∧
    loadLocal (localStateDict [1, 2, 3] 2 1) 2 = .ok (mkShard [1, 2, 3] 2 1) ∧
    loadSharded (shardedStateDict [1, 2, 3] 2 1) 2 =
      .ok (mkShard [1, 2, 3] 2 1) :=
  C5_state_dict_roundtrip [1, 2, 3] 2 1 (by decide) (by decide)

/-- C6: loading a local or sharded state dict whose recorded world size or
shard shape does not match the current world size fails with a load error —
raised by the validation that runs before any buffer is touched — and a
worker applying such a load keeps its current shard unchanged
(all-or-nothing, never a silent reshape). -/
theorem C6_state_dict_mismatch_load (sdl : LocalSD) (sds : ShardedSD)
    (w : Nat) (cur1 cur2 : List Int)
    (h1 : sdl.worldSize ≠ w ∨ sdl.shardData.length ≠ ceilDiv sdl.origLen w)
    (h2 : sds.worldSize ≠ w ∨
      sds.chunk.length ≠ trimLen sds.origLen w sds.rank) :
    (∃ e, loadLocal sdl w = .error e) ∧
    applyLoadLocal sdl w cur1 = cur1 ∧
    (∃ e, loadSharded sds w = .error e) ∧
    applyLoadSharded sds w cur2 = cur2 := by
  have hl : ∃ e, loadLocal sdl w = .error e := by
    rw [loadLocal]
    by_cases hw : sdl.worldSize = w
    · rcases h1 with hne | hsh
      · exact absurd hw hne
      · rw [if_neg (by simp [hw]), if_pos hsh]
        exact ⟨_, rfl⟩
    · rw [if_pos hw]
      exact ⟨_, rfl⟩
  have hs : ∃ e, loadSharded sds w = .error e := by
    rw [loadSharded]
    by_cases hw : sds.worldSize = w
    · rcases h2 with hne | hsh
      · exact absurd hw hne
      · rw [if_neg (by simp [hw]), if_pos hsh]
        exact ⟨_, rfl⟩
    · rw [if_pos hw]
      exact ⟨_, rfl⟩
  obtain ⟨e1, he1⟩ := hl
  obtain ⟨e2, he2⟩ := hs
  exact ⟨⟨e1, he1⟩, by simp [applyLoadLocal, he1], ⟨e2, he2⟩,
    by simp [applyLoadSharded, he2]⟩

/-- Witness for C6, exercising both mismatch kinds at world size 3: the
spec's Scenario C (a local state dict saved at world size 2, loaded at world
size 3), and a sharded state dict with the matching world size 3 but a
5-element chunk where rank 0 of a length-4 group must hold 2 elements; the
pre-load shards [7, 7] and [8, 8] survive both failed loads. -/
theorem C6_state_dict_mismatch_load_witness :
    (∃ e, loadLocal (localStateDict [1, 2, 3, 4] 2 0) 3 = .error e) ∧
    applyLoadLocal (localStateDict [1, 2, 3, 4] 2 0) 3 [7, 7] = [7, 7] ∧
    (∃ e, loadSharded ⟨3, 0, [9, 9, 9, 9, 9], 4⟩ 3 = .error e) ∧
    applyLoadSharded ⟨3, 0, [9, 9, 9, 9, 9], 4⟩ 3 [8, 8] = [8, 8] :=
  C6_state_dict_mismatch_load (localStateDict [1, 2, 3, 4] 2 0)
    ⟨3, 0, [9, 9, 9, 9, 9], 4⟩ 3 [7, 7] [8, 8]
    (by decide) (by decide)

/-- C7: `flatten()` fails for every zero-parameter group, and fails for every
group holding a parameter whose dtype class differs from the first one's when
the policy requires a uniform dtype per group; both are construction-time
errors of the `Except` result, so no flat buffer (no partial wrap) is ever
produced. -/
theorem C7_construction_errors (w : Nat) (p : Param) (rest : List Param)
    (q : Param) (hq : q ∈ rest) (hdq : q.dtype ≠ p.dtype) :
    flatten ([] : List Param) w true = .error .emptyGroup ∧
    flatten (p :: rest) w true = .error .mismatchedDtype := by
  refine ⟨rfl, ?_⟩
  rw [flatten]
  have hall : rest.all (fun q2 => q2.dtype == p.dtype) = false := by
    rw [List.all_eq_false]
    exact ⟨q, hq, by simp [hdq]⟩
  simp [hall]

/-- Witness for C7: a two-parameter group mixing dtype classes 4 and 2
(4-byte and 2-byte floats) over 2 workers. -/
theorem C7_construction_errors_witness :
    flatten ([] : List Param) 2 true = .error .emptyGroup ∧
    flatten [⟨4, [2], [1, 2]⟩, ⟨2, [1], [3]⟩] 2 true =
      .error .mismatchedDtype :=
  C7_construction_errors 2 ⟨4, [2], [1, 2]⟩ [⟨2, [1], [3]⟩] ⟨2, [1], [3]⟩
    (by decide) (by decide)

/-- C8: for a group of exactly one well-formed parameter of shape [8] with
the 4-byte float storage dtype, sharded across 2 workers, each worker's local
shard has length 4, and `unshard()` yields the same length-8 buffer on both
workers — the flattened buffer itself. -/
theorem C8_scenario_a (p : Param) (buf : List Int) (hshape : p.shape = [8])
    (_hdtype : p.dtype = 4) (hwf : p.wf) (hok : flatten [p] 2 true = .ok buf) :
    (shard buf 2 0).length = 4 ∧ (shard buf 2 1).length = 4 ∧
    unshardOnWorker 0 [shard buf 2 0, shard buf 2 1] =
      unshardOnWorker 1 [shard buf 2 0, shard buf 2 1] ∧
    (unshardOnWorker 0 [shard buf 2 0, shard buf 2 1]).length = 8 ∧
    unshardOnWorker 0 [shard buf 2 0, shard buf 2 1] = buf := by
  have hdl : (flattenData [p]).length = 8 := by
    have hw := hwf
    rw [Param.wf, Param.numel, hshape] at hw
    simpa [flattenData] using hw
  have hbuf : buf = padTo (paddedLen (flattenData [p]).length 2)
      (flattenData [p]) := by
    rw [flatten] at hok
    simp at hok
    exact hok.symm
  have hblen : buf.length = 8 := by
    rw [hbuf, padTo_length _ (le_paddedLen _ _ (by decide)), hdl]
    decide
  have hd2 : buf.length / 2 = 4 := by rw [hblen]
  have hs0 : shard buf 2 0 = buf.take 4 := by
    rw [shard, hd2]
    norm_num
  have hs1 : shard buf 2 1 = buf.drop 4 := by
    rw [shard, hd2, Nat.one_mul]
    exact List.take_of_length_le (by rw [List.length_drop, hblen])
  have hfull : unshardOnWorker 0 [shard buf 2 0, shard buf 2 1] = buf := by
    simp only [unshardOnWorker, hs0, hs1, List.flatten_cons, List.flatten_nil,
      List.append_nil]
    exact List.take_append_drop 4 buf
  refine ⟨?_, ?_, rfl, ?_, hfull⟩
  · rw [hs0, List.length_take, hblen]
    decide
  · rw [hs1, List.length_drop, hblen]
  · rw [hfull, hblen]

/-- Witness for C8: the parameter with data 10..17, dtype class 4, shape
[8]. -/
theorem C8_scenario_a_witness :
    (shard [10, 11, 12, 13, 14, 15, 16, 17] 2 0).length = 4 ∧
    (shard [10, 11, 12, 13, 14, 15, 16, 17] 2 1).length = 4 ∧
    unshardOnWorker 0
        [shard [10, 11, 12, 13, 14, 15, 16, 17] 2 0,
          shard [10, 11, 12, 13, 14, 15, 16, 17] 2 1] =
      unshardOnWorker 1
        [shard [10, 11, 12, 13, 14, 15, 16, 17] 2 0,
          shard [10, 11, 12, 13, 14, 15, 16, 17] 2 1] ∧
    (unshardOnWorker 0
        [shard [10, 11, 12, 13, 14, 15, 16, 17] 2 0,
          shard [10, 11, 12, 13, 14, 15, 16, 17] 2 1]).length = 8 ∧
    unshardOnWorker 0
        [shard [10, 11, 12, 13, 14, 15, 16, 17] 2 0,
          shard [10, 11, 12, 13, 14, 15, 16, 17] 2 1] =
      [10, 11, 12, 13, 14, 15, 16, 17] :=
  C8_scenario_a ⟨4, [8], [10, 11, 12, 13, 14, 15, 16, 17]⟩
    [10, 11, 12, 13, 14, 15, 16, 17] (by decide) (by decide) (by decide)
    (by rfl)

/-- The assertion loop passes when no field name is numeric. -/
theorem checkFieldNames_ok (l : List String)
    (h : ∀ f ∈ l, pyIsNumeric f = false) : checkFieldNames l = .ok () := by
  induction l with
  | nil => rfl
  | cons f rest ih =>
    rw [checkFieldNames, if_neg (by simp [h f (by simp)])]
    exact ih (fun g hg => h g (by simp [hg]))

/-- The assertion loop fails when some field name is numeric. -/
theorem checkFieldNames_error_of_mem (l : List String) (f : String)
    (hf : f ∈ l) (hnum : pyIsNumeric f = true) :
    ∃ e, checkFieldNames l = .error e := by
  induction l with
  | nil => exact absurd hf (List.not_mem_nil f)
  | cons g rest ih =>
    rw [checkFieldNames]
    by_cases hg : pyIsNumeric g = true
    · exact ⟨_, by rw [if_pos hg]⟩
    · rcases List.mem_cons.mp hf with heq | hmem
      · exact absurd (heq ▸ hnum) hg
      · rw [if_neg hg]
        exact ih hmem

/-- C9: for every diagnostic rule whose message template parses and whose
format fields are all non-numeric, `_format_rule_for_python_class` returns
the generated Python class string whose `format_message` and `format`
signatures list exactly those field names, comma-joined in template order
(and whose bodies forward them as `name=name` keywords); for any rule whose
template contains a numeric (positional) field name, the function fails its
assertion instead of returning. -/
theorem C9_format_rule_python_class (rule : PyRule) (parts : List FmtPart)
    (hp : pyFormatParse rule.message_template = some parts) :
    ((∀ f ∈ extractFieldNames parts, pyIsNumeric f = false) →
      formatRuleForPythonClass rule =
        .ok (pyRuleClassTemplate (kebabToPascal rule.name)
          rule.short_description (pyRepr rule.message_template)
          (String.intercalate ", " (extractFieldNames parts))
          (String.intercalate ", "
            ((extractFieldNames parts).map (fun f => f ++ "=" ++ f))))) ∧
    ((∃ f ∈ extractFieldNames parts, pyIsNumeric f = true) →
      ∃ msg, formatRuleForPythonClass rule = .error msg) := by
  constructor
  · intro hall
    simp only [formatRuleForPythonClass, hp]
    rw [checkFieldNames_ok _ hall]
  · rintro ⟨f, hf, hnum⟩
    obtain ⟨e, he⟩ := checkFieldNames_error_of_mem _ f hf hnum
    refine ⟨e, ?_⟩
    simp only [formatRuleForPythonClass, hp]
    rw [he]

/-- Witness for C9: a two-field rule — both field names non-numeric — yields
the generated class string with the field names "node" and "what" in template
order. -/
theorem C9_format_rule_python_class_witness :
    (∀ f ∈ extractFieldNames
        ((("Node ".toList.map FmtPart.lit) ++ [FmtPart.field "node".toList]) ++
          (" lacks ".toList.map FmtPart.lit) ++
          [FmtPart.field "what".toList]),
      pyIsNumeric f = false) ∧
    formatRuleForPythonClass
        ⟨"node-missing-shape", "Missing shape.",
          "Node \x7bnode\x7d lacks \x7bwhat\x7d"⟩ =
      .ok (pyRuleClassTemplate (kebabToPascal "node-missing-shape")
        "Missing shape." (pyRepr "Node \x7bnode\x7d lacks \x7bwhat\x7d")
        (String.intercalate ", "
          (extractFieldNames
            ((("Node ".toList.map FmtPart.lit) ++
              [FmtPart.field "node".toList]) ++
              (" lacks ".toList.map FmtPart.lit) ++
              [FmtPart.field "what".toList])))
        (String.intercalate ", "
          ((extractFieldNames
            ((("Node ".toList.map FmtPart.lit) ++
              [FmtPart.field "node".toList]) ++
              (" lacks ".toList.map FmtPart.lit) ++
              [FmtPart.field "what".toList])).map (fun f => f ++ "=" ++ f)))) :=
  ⟨by decide,
    (C9_format_rule_python_class
      ⟨"node-missing-shape", "Missing shape.",
        "Node \x7bnode\x7d lacks \x7bwhat\x7d"⟩
      ((("Node ".toList.map FmtPart.lit) ++ [FmtPart.field "node".toList]) ++
        (" lacks ".toList.map FmtPart.lit) ++ [FmtPart.field "what".toList])
      (by decide)).1 (by decide)⟩

/-- C10: whatever rules are supplied, a successful `gen_diagnostics` run
writes only the Python output `_rules.py` (into `out_py_dir`) and the C++
output `rules.h` (into `out_cpp_dir`); `gen_diagnostics_docs` performs no
action at all, so when the docs directory is distinct from the two output
directories no effect touches it and it is left completely unchanged. -/
theorem C10_generator_frame (rules : List PyRule)
    (out_py_dir out_cpp_dir out_docs_dir template_dir : String)
    (effs : List GenEffect)
    (h : gen_diagnostics rules out_py_dir out_cpp_dir out_docs_dir
      template_dir = .ok effs) :
    gen_diagnostics_docs rules out_docs_dir template_dir = [] ∧
    writesOf effs = [(out_py_dir, "_rules.py"), (out_cpp_dir, "rules.h")] ∧
    (out_docs_dir ≠ out_py_dir → out_docs_dir ≠ out_cpp_dir →
      ∀ e ∈ effs, touchesDir e ≠ out_docs_dir) := by
  have heffs : effs =
      [.writeFile out_py_dir "_rules.py", .lintFile out_py_dir "_rules.py",
        .writeFile out_cpp_dir "rules.h", .lintFile out_cpp_dir "rules.h"] := by
    unfold gen_diagnostics gen_diagnostics_python at h
    cases hm : rules.mapM formatRuleForPythonClass with
    | error e =>
      rw [hm] at h
      simp [Except.map] at h
    | ok v =>
      rw [hm] at h
      simp only [Except.map, gen_diagnostics_cpp, gen_diagnostics_docs,
        List.append_nil, Except.ok.injEq] at h
      exact h.symm
  subst heffs
  refine ⟨rfl, rfl, ?_⟩
  intro hd1 hd2 e he
  simp only [List.mem_cons, List.not_mem_nil, or_false] at he
  rcases he with rfl | rfl | rfl | rfl <;>
    simp [touchesDir, Ne.symm hd1, Ne.symm hd2]

/-- Witness for C10: one rule, distinct output directories. -/
theorem C10_generator_frame_witness :
    gen_diagnostics_docs [⟨"a-b", "d", "t"⟩] "docs" "tmpl" = [] ∧
    writesOf
        [.writeFile "py" "_rules.py", .lintFile "py" "_rules.py",
          .writeFile "cpp" "rules.h", .lintFile "cpp" "rules.h"] =
      [("py", "_rules.py"), ("cpp", "rules.h")] ∧
    ("docs" ≠ "py" → "docs" ≠ "cpp" →
      ∀ e ∈ ([.writeFile "py" "_rules.py", .lintFile "py" "_rules.py",
          .writeFile "cpp" "rules.h", .lintFile "cpp" "rules.h"] :
            List GenEffect),
        touchesDir e ≠ "docs") :=
  C10_generator_frame [⟨"a-b", "d", "t"⟩] "py" "cpp" "docs" "tmpl"
    [.writeFile "py" "_rules.py", .lintFile "py" "_rules.py",
      .writeFile "cpp" "rules.h", .lintFile "cpp" "rules.h"] (by rfl)

end Spec2Proof
